import Mathlib

/-!
# Verification of the yakut deferred-expression subsystem

Shallow embedding of the expression compiler, provider binder, deferred
expression nodes and document tag resolver described by the specification
of `yakut.cmd.publish._message_factory`, together with proofs of the
testable properties exercised by `tests/cmd/publish/message_factory.py`.

The implementation module itself is not among the provided sources (only
its unit test is), so the definitions below are modelled from the
specification, with the unit test fixing the observable details
(error-message wording, the end-to-end example).
-/

namespace Yakut

/-- Modelled from the spec: a value produced by evaluating an expression is
either a (floating-point, here rational) number or a boolean. -/
inductive Value where
  | num (q : ℚ)
  | bool (b : Bool)
deriving DecidableEq, Repr

/-- Numeric coercion of a value, Python-style: `False = 0`, `True = 1`. -/
def Value.toNum : Value → ℚ
  | .num q => q
  | .bool b => if b then 1 else 0

/-- Truthiness of a value, Python-style: a number is truthy iff nonzero. -/
def Value.truthy : Value → Bool
  | .num q => decide (q ≠ 0)
  | .bool b => b

/-- Modelled from the spec: a `Sample` is a snapshot of external input state
with three sparse integer-keyed tables (`axis : int → float`,
`button : int → bool`, `toggle : int → bool`), embedded as association
lists. -/
structure Sample where
  axis : List (Nat × ℚ)
  button : List (Nat × Bool)
  toggle : List (Nat × Bool)

/-- Axis lookup; an absent index is defined to evaluate as `0.0`. -/
def Sample.axisAt (s : Sample) (k : Nat) : ℚ :=
  (s.axis.lookup k).getD 0

/-- Button lookup; an absent index is defined to evaluate as `false`. -/
def Sample.buttonAt (s : Sample) (k : Nat) : Bool :=
  (s.button.lookup k).getD false

/-- Toggle lookup; an absent index is defined to evaluate as `false`. -/
def Sample.toggleAt (s : Sample) (k : Nat) : Bool :=
  (s.toggle.lookup k).getD false

/-- The three indexable named tables of the grammar. -/
inductive TableKind where
  | axis
  | button
  | toggle
deriving DecidableEq, Repr

/-- Binary arithmetic operators of the grammar. -/
inductive ArithOp where
  | add
  | sub
  | mul
  | div
deriving DecidableEq, Repr

/-- Comparison operators of the grammar. -/
inductive CmpOp where
  | lt
  | le
  | gt
  | ge
  | eq
  | ne
deriving DecidableEq, Repr

/-- Modelled from the spec: the closed node-kind set of the compiled
expression AST (literal, table lookup, unary/binary operators, boolean
connectives, call to an allow-listed function of one or two arguments). -/
inductive Expr where
  | lit (v : Value)
  | table (t : TableKind) (idx : Nat)
  | neg (e : Expr)
  | notE (e : Expr)
  | andE (a b : Expr)
  | orE (a b : Expr)
  | cmp (op : CmpOp) (a b : Expr)
  | arith (op : ArithOp) (a b : Expr)
  | call1 (f : String) (a : Expr)
  | call2 (f : String) (a b : Expr)
deriving DecidableEq, Repr

/-- Interpretation of the allow-listed pure math functions (the embedding
keeps them abstract: any assignment of rational functions to names). -/
structure MathInterp where
  un : String → ℚ → ℚ
  bin : String → ℚ → ℚ → ℚ

/-- Evaluation of a comparison operator on numbers. -/
def CmpOp.eval : CmpOp → ℚ → ℚ → Bool
  | .lt, a, b => decide (a < b)
  | .le, a, b => decide (a ≤ b)
  | .gt, a, b => decide (b < a)
  | .ge, a, b => decide (b ≤ a)
  | .eq, a, b => decide (a = b)
  | .ne, a, b => decide (a ≠ b)

/-- Evaluation of an arithmetic operator on numbers. -/
def ArithOp.eval : ArithOp → ℚ → ℚ → ℚ
  | .add, a, b => a + b
  | .sub, a, b => a - b
  | .mul, a, b => a * b
  | .div, a, b => a / b

/-- Modelled from the spec: structural recursion evaluating a compiled
expression against one Sample's three tables, applying the absent-key
defaults; a side-effect-free total function of the sampled state. -/
def eval (itp : MathInterp) (s : Sample) : Expr → Value
  | .lit v => v
  | .table .axis i => .num (s.axisAt i)
  | .table .button i => .bool (s.buttonAt i)
  | .table .toggle i => .bool (s.toggleAt i)
  | .neg e => .num (-(eval itp s e).toNum)
  | .notE e => .bool (!(eval itp s e).truthy)
  | .andE a b =>
      let va := eval itp s a
      if va.truthy then eval itp s b else va
  | .orE a b =>
      let va := eval itp s a
      if va.truthy then va else eval itp s b
  | .cmp op a b => .bool (op.eval (eval itp s a).toNum (eval itp s b).toNum)
  | .arith op a b => .num (op.eval (eval itp s a).toNum (eval itp s b).toNum)
  | .call1 f a => .num (itp.un f (eval itp s a).toNum)
  | .call2 f a b => .num (itp.bin f (eval itp s a).toNum (eval itp s b).toNum)

/-- Tokens of the expression grammar: numerals, identifiers and operator
symbols. -/
inductive Token where
  | num (q : ℚ)
  | ident (s : String)
  | sym (s : String)
deriving DecidableEq, Repr

/-- First character of an identifier: a letter or underscore. -/
def isIdentStart (c : Char) : Bool :=
  c.isAlpha || c = '_'

/-- Subsequent character of an identifier: a letter, digit or underscore. -/
def isIdentChar (c : Char) : Bool :=
  c.isAlphanum || c = '_'

/-- Value of a digit string. -/
def digitsToNat (ds : List Char) : Nat :=
  ds.foldl (fun n c => 10 * n + (c.toNat - '0'.toNat)) 0

/-- Fuel-indexed scanner turning a character stream into tokens; numerals
are unsigned decimal literals with an optional fractional part. -/
def tokenizeAux : Nat → List Char → Option (List Token)
  | 0, _ => none
  | _ + 1, [] => some []
  | fuel + 1, c :: cs =>
    if c = ' ' then tokenizeAux fuel cs
    else if c.isDigit then
      let ds := (c :: cs).takeWhile Char.isDigit
      let rest := (c :: cs).dropWhile Char.isDigit
      match rest with
      | '.' :: r2 =>
        let fs := r2.takeWhile Char.isDigit
        if fs.isEmpty then none
        else
          let r3 := r2.dropWhile Char.isDigit
          let q : ℚ := mkRat (digitsToNat (ds ++ fs)) (10 ^ fs.length)
          (tokenizeAux fuel r3).map (Token.num q :: ·)
      | _ => (tokenizeAux fuel rest).map (Token.num (mkRat (digitsToNat ds) 1) :: ·)
    else if isIdentStart c then
      let is := (c :: cs).takeWhile isIdentChar
      let rest := (c :: cs).dropWhile isIdentChar
      (tokenizeAux fuel rest).map (Token.ident (String.mk is) :: ·)
    else if c = '(' || c = ')' || c = '[' || c = ']' || c = '+' || c = '-' || c = '*' || c = '/' || c = ',' then
      (tokenizeAux fuel cs).map (Token.sym (String.mk [c]) :: ·)
    else
      match c, cs with
      | '=', '=' :: r => (tokenizeAux fuel r).map (Token.sym "==" :: ·)
      | '!', '=' :: r => (tokenizeAux fuel r).map (Token.sym "!=" :: ·)
      | '<', '=' :: r => (tokenizeAux fuel r).map (Token.sym "<=" :: ·)
      | '>', '=' :: r => (tokenizeAux fuel r).map (Token.sym ">=" :: ·)
      | '<', r => (tokenizeAux fuel r).map (Token.sym "<" :: ·)
      | '>', r => (tokenizeAux fuel r).map (Token.sym ">" :: ·)
      | _, _ => none

/-- Scan a whole expression text into tokens. -/
def tokenize (text : String) : Option (List Token) :=
  tokenizeAux (text.length + 1) text.toList

/-- The allow-list of pure unary math functions. -/
def unaryFunctions : List String :=
  ["sin", "cos", "tan", "asin", "acos", "atan", "exp", "log", "sqrt", "fabs", "floor", "ceil"]

/-- The allow-list of pure binary math functions. -/
def binaryFunctions : List String :=
  ["atan2", "pow", "fmod"]

/-- Recognise one of the three indexable table names. -/
def tableNamed (s : String) : Option TableKind :=
  if s = "axis" then some .axis
  else if s = "button" then some .button
  else if s = "toggle" then some .toggle
  else none

mutual

/-- `or`-level of the recursive-descent grammar (lowest precedence). -/
def parseOrE : Nat → List Token → Option (Expr × List Token)
  | 0, _ => none
  | fuel + 1, ts => do
    let (a, ts1) ← parseAndE fuel ts
    parseOrRest fuel a ts1

/-- Left-associated chain of trailing `or` clauses. -/
def parseOrRest : Nat → Expr → List Token → Option (Expr × List Token)
  | 0, _, _ => none
  | fuel + 1, a, .ident "or" :: ts => do
    let (b, ts1) ← parseAndE fuel ts
    parseOrRest fuel (.orE a b) ts1
  | _ + 1, a, ts => some (a, ts)

/-- `and`-level of the grammar. -/
def parseAndE : Nat → List Token → Option (Expr × List Token)
  | 0, _ => none
  | fuel + 1, ts => do
    let (a, ts1) ← parseNotE fuel ts
    parseAndRest fuel a ts1

/-- Left-associated chain of trailing `and` clauses. -/
def parseAndRest : Nat → Expr → List Token → Option (Expr × List Token)
  | 0, _, _ => none
  | fuel + 1, a, .ident "and" :: ts => do
    let (b, ts1) ← parseNotE fuel ts
    parseAndRest fuel (.andE a b) ts1
  | _ + 1, a, ts => some (a, ts)

/-- `not`-level of the grammar. -/
def parseNotE : Nat → List Token → Option (Expr × List Token)
  | 0, _ => none
  | fuel + 1, .ident "not" :: ts => do
    let (a, ts1) ← parseNotE fuel ts
    some (.notE a, ts1)
  | fuel + 1, ts => parseCmpE fuel ts

/-- Comparison level of the grammar (one optional comparison). -/
def parseCmpE : Nat → List Token → Option (Expr × List Token)
  | 0, _ => none
  | fuel + 1, ts => do
    let (a, ts1) ← parseAddE fuel ts
    match ts1 with
    | .sym "<" :: ts2 => (parseAddE fuel ts2).map (fun p => (.cmp .lt a p.1, p.2))
    | .sym "<=" :: ts2 => (parseAddE fuel ts2).map (fun p => (.cmp .le a p.1, p.2))
    | .sym ">" :: ts2 => (parseAddE fuel ts2).map (fun p => (.cmp .gt a p.1, p.2))
    | .sym ">=" :: ts2 => (parseAddE fuel ts2).map (fun p => (.cmp .ge a p.1, p.2))
    | .sym "==" :: ts2 => (parseAddE fuel ts2).map (fun p => (.cmp .eq a p.1, p.2))
    | .sym "!=" :: ts2 => (parseAddE fuel ts2).map (fun p => (.cmp .ne a p.1, p.2))
    | _ => some (a, ts1)

/-- Additive level of the grammar. -/
def parseAddE : Nat → List Token → Option (Expr × List Token)
  | 0, _ => none
  | fuel + 1, ts => do
    let (a, ts1) ← parseMulE fuel ts
    parseAddRest fuel a ts1

/-- Left-associated chain of trailing `+`/`-` clauses. -/
def parseAddRest : Nat → Expr → List Token → Option (Expr × List Token)
  | 0, _, _ => none
  | fuel + 1, a, .sym "+" :: ts => do
    let (b, ts1) ← parseMulE fuel ts
    parseAddRest fuel (.arith .add a b) ts1
  | fuel + 1, a, .sym "-" :: ts => do
    let (b, ts1) ← parseMulE fuel ts
    parseAddRest fuel (.arith .sub a b) ts1
  | _ + 1, a, ts => some (a, ts)

/-- Multiplicative level of the grammar. -/
def parseMulE : Nat → List Token → Option (Expr × List Token)
  | 0, _ => none
  | fuel + 1, ts => do
    let (a, ts1) ← parseUnaryE fuel ts
    parseMulRest fuel a ts1

/-- Left-associated chain of trailing `*`/`/` clauses. -/
def parseMulRest : Nat → Expr → List Token → Option (Expr × List Token)
  | 0, _, _ => none
  | fuel + 1, a, .sym "*" :: ts => do
    let (b, ts1) ← parseUnaryE fuel ts
    parseMulRest fuel (.arith .mul a b) ts1
  | fuel + 1, a, .sym "/" :: ts => do
    let (b, ts1) ← parseUnaryE fuel ts
    parseMulRest fuel (.arith .div a b) ts1
  | _ + 1, a, ts => some (a, ts)

/-- Unary sign level of the grammar. -/
def parseUnaryE : Nat → List Token → Option (Expr × List Token)
  | 0, _ => none
  | fuel + 1, .sym "-" :: ts => do
    let (a, ts1) ← parseUnaryE fuel ts
    some (.neg a, ts1)
  | fuel + 1, .sym "+" :: ts => parseUnaryE fuel ts
  | fuel + 1, ts => parseAtomE fuel ts

/-- Atoms: numerals, boolean keywords, table lookups with non-negative
integer-literal indices, allow-listed function calls and parenthesised
expressions; any other identifier is rejected (the allow-list is the
whole symbol table). -/
def parseAtomE : Nat → List Token → Option (Expr × List Token)
  | 0, _ => none
  | _ + 1, .num q :: ts => some (.lit (.num q), ts)
  | _ + 1, .ident "True" :: ts => some (.lit (.bool true), ts)
  | _ + 1, .ident "False" :: ts => some (.lit (.bool false), ts)
  | _ + 1, .ident name :: .sym "[" :: .num q :: .sym "]" :: ts =>
    match tableNamed name with
    | some tk =>
      if q.den = 1 ∧ 0 ≤ q.num then some (.table tk q.num.toNat, ts) else none
    | none => none
  | fuel + 1, .ident f :: .sym "(" :: ts =>
    if f ∈ unaryFunctions then do
      let (a, ts1) ← parseOrE fuel ts
      match ts1 with
      | .sym ")" :: ts2 => some (.call1 f a, ts2)
      | _ => none
    else if f ∈ binaryFunctions then do
      let (a, ts1) ← parseOrE fuel ts
      match ts1 with
      | .sym "," :: ts2 => do
        let (b, ts3) ← parseOrE fuel ts2
        match ts3 with
        | .sym ")" :: ts4 => some (.call2 f a b, ts4)
        | _ => none
      | _ => none
    else none
  | fuel + 1, .sym "(" :: ts => do
    let (a, ts1) ← parseOrE fuel ts
    match ts1 with
    | .sym ")" :: ts2 => some (a, ts2)
    | _ => none
  | _ + 1, _ => none

end

/-- Modelled from the spec: `compile(text) → CompiledExpression`, pure and
deterministic; fails on scan errors, syntax errors, symbols outside the
allow-list, non-integer-literal indices, or trailing input. -/
def compile (text : String) : Option Expr := do
  let ts ← tokenize text
  let (e, rest) ← parseOrE (16 * (ts.length + 1)) ts
  if rest.isEmpty then some e else none

/-- Modelled from the spec: a Provider is a repeatable capability producing
a fresh Sample on each invocation; the embedding indexes invocations by an
abstract instant, so that the backing state may differ between calls. -/
abbrev Sampler : Type := Nat → Sample

/-- Modelled from the spec: all resolution-phase failures are surfaced as
one exception type distinguished by its message text (the unit test
imports a single `ExpressionError` and matches on messages). -/
structure ExpressionError where
  msg : String
deriving DecidableEq, Repr

/-- StructuralError: a tagged node is not a plain scalar. -/
def structuralError (sel : String) : ExpressionError :=
  ⟨"Tagged node !" ++ sel ++ " is not a YAML scalar"⟩

/-- CompileError: the expression text fails to compile; carries the
selector and the original text for diagnostics. -/
def compileError (sel text : String) : ExpressionError :=
  ⟨"Failed to compile expression tagged !" ++ sel ++ ": " ++ text⟩

/-- BindingError: no controller/provider exists for the selector. -/
def bindingError (sel : String) : ExpressionError :=
  ⟨"No controller found for selector " ++ sel⟩

/-- Modelled from the spec: the generic structural parse result — mapping,
sequence and scalar nodes, each optionally carrying a custom tag whose
literal form is the Selector; mappings keep insertion order. -/
inductive YNode where
  | scalar (tag : Option String) (text : String)
  | seq (tag : Option String) (items : List YNode)
  | map (tag : Option String) (entries : List (String × YNode))

/-- Modelled from the spec: a Deferred Expression Node couples one compiled
expression to one bound provider; no internal mutable state. -/
structure DynamicExpression where
  expr : Expr
  sampler : Sampler

/-- `evaluate()`: pull the Sample current at instant `t` from the bound
provider and run the compiled expression on that snapshot. -/
def DynamicExpression.evaluate (de : DynamicExpression) (t : Nat) (itp : MathInterp) : Value :=
  eval itp (de.sampler t) de.expr

/-- Modelled from the spec: the resolved document tree — tagged scalars
replaced one-to-one by Deferred Expression Nodes, everything else passed
through unchanged. -/
inductive RNode where
  | scalar (text : String)
  | seq (items : List RNode)
  | map (entries : List (String × RNode))
  | deferred (de : DynamicExpression)

mutual

/-- Modelled from the spec: the Document Tag Resolver over one node, also
returning the trace of selectors passed to `providerLookup`, in order.
A tagged non-scalar is a StructuralError; a tagged scalar is compiled
first (CompileError on failure), then the provider is looked up exactly
once (BindingError when absent) and a Deferred Expression Node replaces
the node; untagged nodes are rebuilt unchanged. -/
def resolveNodeT (lk : String → Option Sampler) : YNode → Except ExpressionError RNode × List String
  | .scalar none text => (.ok (.scalar text), [])
  | .scalar (some sel) text =>
    match compile text with
    | none => (.error (compileError sel text), [])
    | some e =>
      match lk sel with
      | none => (.error (bindingError sel), [sel])
      | some smp => (.ok (.deferred ⟨e, smp⟩), [sel])
  | .seq none items =>
    let (r, tr) := resolveItemsT lk items
    (r.map .seq, tr)
  | .seq (some sel) _ => (.error (structuralError sel), [])
  | .map none es =>
    let (r, tr) := resolveEntriesT lk es
    (r.map .map, tr)
  | .map (some sel) _ => (.error (structuralError sel), [])

/-- Resolver over a sequence's items, aborting at the first failure. -/
def resolveItemsT (lk : String → Option Sampler) : List YNode → Except ExpressionError (List RNode) × List String
  | [] => (.ok [], [])
  | x :: xs =>
    match resolveNodeT lk x with
    | (.error e, tr) => (.error e, tr)
    | (.ok r, tr) =>
      match resolveItemsT lk xs with
      | (.error e, tr2) => (.error e, tr ++ tr2)
      | (.ok rs, tr2) => (.ok (r :: rs), tr ++ tr2)

/-- Resolver over a mapping's entries in insertion order, aborting at the
first failure. -/
def resolveEntriesT (lk : String → Option Sampler) : List (String × YNode) → Except ExpressionError (List (String × RNode)) × List String
  | [] => (.ok [], [])
  | (k, v) :: es =>
    match resolveNodeT lk v with
    | (.error e, tr) => (.error e, tr)
    | (.ok r, tr) =>
      match resolveEntriesT lk es with
      | (.error e, tr2) => (.error e, tr ++ tr2)
      | (.ok rs, tr2) => (.ok ((k, r) :: rs), tr ++ tr2)

end

/-- The Document Tag Resolver's result (the trace projected away). -/
def resolve (lk : String → Option Sampler) (doc : YNode) : Except ExpressionError RNode :=
  (resolveNodeT lk doc).1

/-- The selectors that `providerLookup` receives during resolution of a
document, in traversal order. -/
def lookupTrace (lk : String → Option Sampler) (doc : YNode) : List String :=
  (resolveNodeT lk doc).2

mutual

/-- Whether a document contains a tagged node whose underlying value is
not a plain scalar. -/
def YNode.badTag : YNode → Bool
  | .scalar _ _ => false
  | .seq (some _) _ => true
  | .seq none items => YNode.badTagItems items
  | .map (some _) _ => true
  | .map none es => YNode.badTagEntries es

/-- `YNode.badTag` over a list of items. -/
def YNode.badTagItems : List YNode → Bool
  | [] => false
  | x :: xs => YNode.badTag x || YNode.badTagItems xs

/-- `YNode.badTag` over mapping entries. -/
def YNode.badTagEntries : List (String × YNode) → Bool
  | [] => false
  | (_, v) :: es => YNode.badTag v || YNode.badTagEntries es

end

mutual

/-- The selectors of the tagged nodes of a document, one per tagged node,
in traversal order. -/
def YNode.taggedSelectors : YNode → List String
  | .scalar none _ => []
  | .scalar (some sel) _ => [sel]
  | .seq none items => YNode.taggedSelectorsItems items
  | .seq (some sel) _ => [sel]
  | .map none es => YNode.taggedSelectorsEntries es
  | .map (some sel) _ => [sel]

/-- `YNode.taggedSelectors` over a list of items. -/
def YNode.taggedSelectorsItems : List YNode → List String
  | [] => []
  | x :: xs => YNode.taggedSelectors x ++ YNode.taggedSelectorsItems xs

/-- `YNode.taggedSelectors` over mapping entries. -/
def YNode.taggedSelectorsEntries : List (String × YNode) → List String
  | [] => []
  | (_, v) :: es => YNode.taggedSelectors v ++ YNode.taggedSelectorsEntries es

end

mutual

/-- The frame relation between a structural parse and a resolved tree
under a given provider lookup: every validly-tagged scalar is replaced
one-to-one by a Deferred Expression Node wrapping its compiled expression
and its looked-up provider; every other node is unchanged, with mapping
keys preserved in order. -/
def Matches (lk : String → Option Sampler) : YNode → RNode → Prop
  | .scalar none text, r => r = .scalar text
  | .scalar (some sel) text, r =>
    ∃ e smp, compile text = some e ∧ lk sel = some smp ∧ r = .deferred ⟨e, smp⟩
  | .seq none items, r => ∃ rs, r = .seq rs ∧ MatchesItems lk items rs
  | .seq (some _) _, _ => False
  | .map none es, r => ∃ fs, r = .map fs ∧ MatchesEntries lk es fs
  | .map (some _) _, _ => False

/-- `Matches` pointwise over sequence items. -/
def MatchesItems (lk : String → Option Sampler) : List YNode → List RNode → Prop
  | [], rs => rs = []
  | x :: xs, rs => ∃ r rs2, rs = r :: rs2 ∧ Matches lk x r ∧ MatchesItems lk xs rs2

/-- `Matches` pointwise over mapping entries, preserving each key in
place (hence preserving insertion order). -/
def MatchesEntries (lk : String → Option Sampler) : List (String × YNode) → List (String × RNode) → Prop
  | [], fs => fs = []
  | (k, v) :: es, fs => ∃ r fs2, fs = (k, r) :: fs2 ∧ Matches lk v r ∧ MatchesEntries lk es fs2

end

/-- The keys of a resolved mapping node, in order. -/
def RNode.keys : RNode → List String
  | .map es => es.map Prod.fst
  | _ => []

/-- The error message of `e` mentions the phrase `s` (as a contiguous
substring). -/
def mentions (e : ExpressionError) (s : String) : Prop :=
  s.data <:+: e.msg.data

/-! ## Fixtures from the unit test

The concrete document, provider and control states exercised by
`tests/cmd/publish/message_factory.py`: the provider registered under
selector `"7"`, the backing tables at the three stages of the test
(initial; after `axis[0] *= -1; toggle[1] = True`; after clearing all
three tables), and the document with the two tagged expressions. -/

/-- The expression text tagged onto `foo`. -/
def fooText : String := "sin(axis[0] + 1.0)"

/-- The expression text tagged onto `bar`. -/
def barText : String := "toggle[1] and button[2]"

/-- The compiled form of `fooText`. -/
def fooExpr : Expr :=
  .call1 "sin" (.arith .add (.table .axis 0) (.lit (.num 1)))

/-- The compiled form of `barText`. -/
def barExpr : Expr :=
  .andE (.table .toggle 1) (.table .button 2)

/-- The control state at stage 0 of the test:
`axis = {0: 0.5, 5: -0.7}`, `button = {2: True}`, `toggle = {1: False}`. -/
def sample0 : Sample :=
  ⟨[(0, 1/2), (5, -(7/10))], [(2, true)], [(1, false)]⟩

/-- The control state at stage 1, after `axis[0] *= -1; toggle[1] = True`. -/
def sample1 : Sample :=
  ⟨[(0, -(1/2)), (5, -(7/10))], [(2, true)], [(1, true)]⟩

/-- The control state at stage 2, after clearing all three tables. -/
def sample2 : Sample :=
  ⟨[], [], []⟩

/-- The test's provider: the control sampler bound to selector `"7"`,
returning the control state current at each stage. -/
def sampleAt : Sampler := fun t =>
  if t = 0 then sample0 else if t = 1 then sample1 else sample2

/-- The test's `make_control_sampler`: a provider under selector `"7"`
and none elsewhere. -/
def lookup7 : String → Option Sampler := fun sel =>
  if sel = "7" then some sampleAt else none

/-- The test document
`{foo: !7 'sin(axis[0] + 1.0)', bar: !7 'toggle[1] and button[2]'}`. -/
def doc1 : YNode :=
  .map none [("foo", .scalar (some "7") fooText), ("bar", .scalar (some "7") barText)]

/-- The expected resolution of `doc1`. -/
def tree1 : RNode :=
  .map [("foo", .deferred ⟨fooExpr, sampleAt⟩), ("bar", .deferred ⟨barExpr, sampleAt⟩)]

/-- The test document `baz: !999 []` (tagged node that is not a scalar). -/
def docBadStruct : YNode :=
  .map none [("baz", .seq (some "999") [])]

/-- The test document `baz: !999 0syntax error` (invalid expression). -/
def docBadSyntax : YNode :=
  .map none [("baz", .scalar (some "999") "0syntax error")]

/-- The test document `baz: !999 axis[0]` (selector with no provider). -/
def docNoProvider : YNode :=
  .map none [("baz", .scalar (some "999") "axis[0]")]

/-- A concrete interpretation of the math functions, used to instantiate
universally quantified statements at a specific input. -/
def trivialInterp : MathInterp :=
  ⟨fun _ q => q, fun _ a _ => a⟩

/-! ## General lemmas about the resolver -/

mutual

/-- A node containing a tagged non-scalar never resolves successfully. -/
theorem badTag_error (lk : String → Option Sampler) (n : YNode) (h : n.badTag = true) :
    ∃ e, (resolveNodeT lk n).1 = Except.error e := by
  match n with
  | .scalar t text => simp [YNode.badTag] at h
  | .seq (some sel) items => exact ⟨structuralError sel, rfl⟩
  | .map (some sel) es => exact ⟨structuralError sel, rfl⟩
  | .seq none items =>
    rw [YNode.badTag] at h
    obtain ⟨e, he⟩ := badTagItems_error lk items h
    refine ⟨e, ?_⟩
    simp only [resolveNodeT]
    rcases hit : resolveItemsT lk items with ⟨r, tr⟩
    rw [hit] at he
    simp only at he
    simp [he, Except.map]
  | .map none es =>
    rw [YNode.badTag] at h
    obtain ⟨e, he⟩ := badTagEntries_error lk es h
    refine ⟨e, ?_⟩
    simp only [resolveNodeT]
    rcases hit : resolveEntriesT lk es with ⟨r, tr⟩
    rw [hit] at he
    simp only at he
    simp [he, Except.map]

/-- A list of items containing a tagged non-scalar never resolves. -/
theorem badTagItems_error (lk : String → Option Sampler) (xs : List YNode)
    (h : YNode.badTagItems xs = true) :
    ∃ e, (resolveItemsT lk xs).1 = Except.error e := by
  match xs with
  | [] => simp [YNode.badTagItems] at h
  | x :: rest =>
    rw [YNode.badTagItems, Bool.or_eq_true] at h
    rcases hx : resolveNodeT lk x with ⟨rx, trx⟩
    rcases h with h | h
    · obtain ⟨e, he⟩ := badTag_error lk x h
      rw [hx] at he
      simp only at he
      subst he
      exact ⟨e, by simp [resolveItemsT, hx]⟩
    · obtain ⟨e, he⟩ := badTagItems_error lk rest h
      rcases hrest : resolveItemsT lk rest with ⟨rr, trr⟩
      rw [hrest] at he
      simp only at he
      subst he
      cases rx with
      | error e2 => exact ⟨e2, by simp [resolveItemsT, hx]⟩
      | ok v => exact ⟨e, by simp [resolveItemsT, hx, hrest]⟩

/-- A list of mapping entries containing a tagged non-scalar never
resolves. -/
theorem badTagEntries_error (lk : String → Option Sampler) (es : List (String × YNode))
    (h : YNode.badTagEntries es = true) :
    ∃ e, (resolveEntriesT lk es).1 = Except.error e := by
  match es with
  | [] => simp [YNode.badTagEntries] at h
  | (k, v) :: rest =>
    rw [YNode.badTagEntries, Bool.or_eq_true] at h
    rcases hx : resolveNodeT lk v with ⟨rx, trx⟩
    rcases h with h | h
    · obtain ⟨e, he⟩ := badTag_error lk v h
      rw [hx] at he
      simp only at he
      subst he
      exact ⟨e, by simp [resolveEntriesT, hx]⟩
    · obtain ⟨e, he⟩ := badTagEntries_error lk rest h
      rcases hrest : resolveEntriesT lk rest with ⟨rr, trr⟩
      rw [hrest] at he
      simp only at he
      subst he
      cases rx with
      | error e2 => exact ⟨e2, by simp [resolveEntriesT, hx]⟩
      | ok v2 => exact ⟨e, by simp [resolveEntriesT, hx, hrest]⟩

end

mutual

/-- A successful resolution is related to its source node by the frame
relation: tagged scalars become their Deferred Expression Nodes, all
other nodes are unchanged. -/
theorem resolve_matches (lk : String → Option Sampler) (n : YNode) (r : RNode)
    (h : (resolveNodeT lk n).1 = Except.ok r) : Matches lk n r := by
  match n with
  | .scalar none text =>
    simp only [resolveNodeT] at h
    cases h
    rfl
  | .scalar (some sel) text =>
    simp only [resolveNodeT] at h
    rcases hc : compile text with _ | e
    · rw [hc] at h
      simp at h
    · rw [hc] at h
      rcases hl : lk sel with _ | smp
      · rw [hl] at h
        simp at h
      · rw [hl] at h
        simp only at h
        cases h
        exact ⟨e, smp, hc, hl, rfl⟩
  | .seq (some sel) items =>
    simp only [resolveNodeT] at h
    cases h
  | .map (some sel) es =>
    simp only [resolveNodeT] at h
    cases h
  | .seq none items =>
    simp only [resolveNodeT] at h
    rcases hit : resolveItemsT lk items with ⟨ri, tri⟩
    rw [hit] at h
    simp only at h
    cases ri with
    | error e => simp [Except.map] at h
    | ok rs =>
      simp only [Except.map] at h
      cases h
      exact ⟨rs, rfl, resolveItems_matches lk items rs (by rw [hit])⟩
  | .map none es =>
    simp only [resolveNodeT] at h
    rcases hit : resolveEntriesT lk es with ⟨ri, tri⟩
    rw [hit] at h
    simp only at h
    cases ri with
    | error e => simp [Except.map] at h
    | ok rs =>
      simp only [Except.map] at h
      cases h
      exact ⟨rs, rfl, resolveEntries_matches lk es rs (by rw [hit])⟩

/-- Frame relation for successfully resolved sequence items. -/
theorem resolveItems_matches (lk : String → Option Sampler) (xs : List YNode)
    (rs : List RNode) (h : (resolveItemsT lk xs).1 = Except.ok rs) :
    MatchesItems lk xs rs := by
  match xs with
  | [] =>
    simp only [resolveItemsT] at h
    cases h
    rfl
  | x :: rest =>
    rcases hx : resolveNodeT lk x with ⟨rx, trx⟩
    rcases hrest : resolveItemsT lk rest with ⟨rr, trr⟩
    simp only [resolveItemsT, hx, hrest] at h
    cases rx with
    | error e => simp at h
    | ok v =>
      cases rr with
      | error e => simp at h
      | ok vs =>
        simp only at h
        cases h
        exact ⟨v, vs, rfl, resolve_matches lk x v (by rw [hx]),
          resolveItems_matches lk rest vs (by rw [hrest])⟩

/-- Frame relation for successfully resolved mapping entries: each key is
kept in place, so insertion order is preserved. -/
theorem resolveEntries_matches (lk : String → Option Sampler) (es : List (String × YNode))
    (fs : List (String × RNode)) (h : (resolveEntriesT lk es).1 = Except.ok fs) :
    MatchesEntries lk es fs := by
  match es with
  | [] =>
    simp only [resolveEntriesT] at h
    cases h
    rfl
  | (k, v) :: rest =>
    rcases hx : resolveNodeT lk v with ⟨rx, trx⟩
    rcases hrest : resolveEntriesT lk rest with ⟨rr, trr⟩
    simp only [resolveEntriesT, hx, hrest] at h
    cases rx with
    | error e => simp at h
    | ok rv =>
      cases rr with
      | error e => simp at h
      | ok rvs =>
        simp only at h
        cases h
        exact ⟨rv, rvs, rfl, resolve_matches lk v rv (by rw [hx]),
          resolveEntries_matches lk rest rvs (by rw [hrest])⟩

end

mutual

/-- On a successful resolution the trace of selectors handed to
`providerLookup` is precisely the selectors of the tagged nodes, one per
tagged node, in traversal order. -/
theorem resolve_trace (lk : String → Option Sampler) (n : YNode) (r : RNode)
    (h : (resolveNodeT lk n).1 = Except.ok r) :
    (resolveNodeT lk n).2 = n.taggedSelectors := by
  match n with
  | .scalar none text => rfl
  | .scalar (some sel) text =>
    simp only [resolveNodeT] at h ⊢
    rcases hc : compile text with _ | e
    · rw [hc] at h
      simp at h
    · rw [hc] at h
      rcases hl : lk sel with _ | smp
      · rw [hl] at h
        simp at h
      · simp [YNode.taggedSelectors]
  | .seq (some sel) items =>
    simp only [resolveNodeT] at h
    cases h
  | .map (some sel) es =>
    simp only [resolveNodeT] at h
    cases h
  | .seq none items =>
    simp only [resolveNodeT] at h ⊢
    rcases hit : resolveItemsT lk items with ⟨ri, tri⟩
    rw [hit] at h
    simp only at h ⊢
    cases ri with
    | error e => simp [Except.map] at h
    | ok rs =>
      have h2 := resolveItems_trace lk items rs (by rw [hit])
      rw [hit] at h2
      simp only at h2
      simpa [YNode.taggedSelectors] using h2
  | .map none es =>
    simp only [resolveNodeT] at h ⊢
    rcases hit : resolveEntriesT lk es with ⟨ri, tri⟩
    rw [hit] at h
    simp only at h ⊢
    cases ri with
    | error e => simp [Except.map] at h
    | ok rs =>
      have h2 := resolveEntries_trace lk es rs (by rw [hit])
      rw [hit] at h2
      simp only at h2
      simpa [YNode.taggedSelectors] using h2

/-- Trace of a successfully resolved list of sequence items. -/
theorem resolveItems_trace (lk : String → Option Sampler) (xs : List YNode)
    (rs : List RNode) (h : (resolveItemsT lk xs).1 = Except.ok rs) :
    (resolveItemsT lk xs).2 = YNode.taggedSelectorsItems xs := by
  match xs with
  | [] => rfl
  | x :: rest =>
    rcases hx : resolveNodeT lk x with ⟨rx, trx⟩
    rcases hrest : resolveItemsT lk rest with ⟨rr, trr⟩
    simp only [resolveItemsT, hx, hrest] at h ⊢
    cases rx with
    | error e => simp at h
    | ok v =>
      cases rr with
      | error e => simp at h
      | ok vs =>
        simp only [YNode.taggedSelectorsItems]
        have h1 := resolve_trace lk x v (by rw [hx])
        have h2 := resolveItems_trace lk rest vs (by rw [hrest])
        rw [hx] at h1
        rw [hrest] at h2
        simp only at h1 h2
        rw [h1, h2]

/-- Trace of a successfully resolved list of mapping entries. -/
theorem resolveEntries_trace (lk : String → Option Sampler) (es : List (String × YNode))
    (fs : List (String × RNode)) (h : (resolveEntriesT lk es).1 = Except.ok fs) :
    (resolveEntriesT lk es).2 = YNode.taggedSelectorsEntries es := by
  match es with
  | [] => rfl
  | (k, v) :: rest =>
    rcases hx : resolveNodeT lk v with ⟨rx, trx⟩
    rcases hrest : resolveEntriesT lk rest with ⟨rr, trr⟩
    simp only [resolveEntriesT, hx, hrest] at h ⊢
    cases rx with
    | error e => simp at h
    | ok rv =>
      cases rr with
      | error e => simp at h
      | ok rvs =>
        simp only [YNode.taggedSelectorsEntries]
        have h1 := resolve_trace lk v rv (by rw [hx])
        have h2 := resolveEntries_trace lk rest rvs (by rw [hrest])
        rw [hx] at h1
        rw [hrest] at h2
        simp only at h1 h2
        rw [h1, h2]

end

/-! ## Concrete facts about the fixtures -/

/-- `sin(axis[0] + 1.0)` compiles to `fooExpr`. -/
theorem compile_fooText : compile fooText = some fooExpr := by decide

/-- `toggle[1] and button[2]` compiles to `barExpr`. -/
theorem compile_barText : compile barText = some barExpr := by decide

/-- Resolving the example document yields the expected tree. -/
theorem resolve_doc1 : resolve lookup7 doc1 = Except.ok tree1 := by
  have hfoo := compile_fooText
  have hbar := compile_barText
  simp only [resolve, doc1, tree1, resolveNodeT, resolveEntriesT, hfoo, hbar, lookup7,
    reduceIte, Except.map]

/-- A structural error message mentions the YAML-scalar requirement. -/
theorem structuralError_mentions (sel : String) :
    mentions (structuralError sel) "YAML scalar" := by
  have h : " is not a ".data ++ "YAML scalar".data = " is not a YAML scalar".data := by decide
  refine ⟨"Tagged node !".data ++ sel.data ++ " is not a ".data, [], ?_⟩
  simp [structuralError, ← h]

/-- A compile error message mentions compilation. -/
theorem compileError_mentions (sel text : String) :
    mentions (compileError sel text) "compile" := by
  have h : "Failed to ".data ++ ("compile".data ++ " expression tagged !".data) =
      "Failed to compile expression tagged !".data := by decide
  refine ⟨"Failed to ".data, " expression tagged !".data ++ sel.data ++ ": ".data ++ text.data, ?_⟩
  simp [compileError, ← h]

/-- A binding error message mentions the missing controller. -/
theorem bindingError_mentions_controller (sel : String) :
    mentions (bindingError sel) "controller" := by
  have h : "No ".data ++ ("controller".data ++ " found for selector ".data) =
      "No controller found for selector ".data := by decide
  refine ⟨"No ".data, " found for selector ".data ++ sel.data, ?_⟩
  simp [bindingError, ← h]

/-- A binding error message mentions the selector requirement. -/
theorem bindingError_mentions_selector (sel : String) :
    mentions (bindingError sel) "selector" := by
  have h : "No controller found for ".data ++ ("selector".data ++ " ".data) =
      "No controller found for selector ".data := by decide
  refine ⟨"No controller found for ".data, " ".data ++ sel.data, ?_⟩
  simp [bindingError, ← h]

/-- Evaluating `foo` at the initial control state gives `sin(0.5 + 1.0)`. -/
theorem eval_foo_sample0 (itp : MathInterp) :
    eval itp sample0 fooExpr = .num (itp.un "sin" (3 / 2)) := by
  show Value.num (itp.un "sin" ((sample0.axisAt 0) + 1)) = _
  norm_num [Sample.axisAt, sample0, List.lookup]

/-- Evaluating `foo` after the axis flip gives `sin(-0.5 + 1.0)`. -/
theorem eval_foo_sample1 (itp : MathInterp) :
    eval itp sample1 fooExpr = .num (itp.un "sin" (1 / 2)) := by
  show Value.num (itp.un "sin" ((sample1.axisAt 0) + 1)) = _
  norm_num [Sample.axisAt, sample1, List.lookup]

/-- Evaluating `foo` with all tables empty gives `sin(0.0 + 1.0)`. -/
theorem eval_foo_sample2 (itp : MathInterp) :
    eval itp sample2 fooExpr = .num (itp.un "sin" 1) := by
  show Value.num (itp.un "sin" ((sample2.axisAt 0) + 1)) = _
  norm_num [Sample.axisAt, sample2, List.lookup]

/-- Evaluating `bar` at the initial control state gives `False`. -/
theorem eval_bar_sample0 (itp : MathInterp) :
    eval itp sample0 barExpr = .bool false := rfl

/-- Evaluating `bar` after the toggle flip gives `True`. -/
theorem eval_bar_sample1 (itp : MathInterp) :
    eval itp sample1 barExpr = .bool true := rfl

/-- Evaluating `bar` with all tables empty gives `False`. -/
theorem eval_bar_sample2 (itp : MathInterp) :
    eval itp sample2 barExpr = .bool false := rfl

/-! ## Absent keys behave as explicit defaults -/

/-- Inserting the default `0` at an absent axis index leaves every
evaluation unchanged: an absent `axis[k]` behaves as `axis[k] = 0.0`. -/
theorem eval_axis_insert (itp : MathInterp) (s : Sample) (k : Nat)
    (h : s.axis.lookup k = none) (e : Expr) :
    eval itp { s with axis := (k, 0) :: s.axis } e = eval itp s e := by
  induction e with
  | lit v => rfl
  | table t i =>
    cases t with
    | axis =>
      simp only [eval, Sample.axisAt, List.lookup]
      by_cases hik : i = k
      · subst hik
        simp [h]
      · have hbeq : (i == k) = false := by simp [hik]
        simp [hbeq]
    | button => rfl
    | toggle => rfl
  | neg e ih => simp [eval, ih]
  | notE e ih => simp [eval, ih]
  | andE a b iha ihb => simp [eval, iha, ihb]
  | orE a b iha ihb => simp [eval, iha, ihb]
  | cmp op a b iha ihb => simp [eval, iha, ihb]
  | arith op a b iha ihb => simp [eval, iha, ihb]
  | call1 f a ih => simp [eval, ih]
  | call2 f a b iha ihb => simp [eval, iha, ihb]

/-- Inserting the default `false` at an absent button index leaves every
evaluation unchanged: an absent `button[k]` behaves as `button[k] = false`. -/
theorem eval_button_insert (itp : MathInterp) (s : Sample) (k : Nat)
    (h : s.button.lookup k = none) (e : Expr) :
    eval itp { s with button := (k, false) :: s.button } e = eval itp s e := by
  induction e with
  | lit v => rfl
  | table t i =>
    cases t with
    | button =>
      simp only [eval, Sample.buttonAt, List.lookup]
      by_cases hik : i = k
      · subst hik
        simp [h]
      · have hbeq : (i == k) = false := by simp [hik]
        simp [hbeq]
    | axis => rfl
    | toggle => rfl
  | neg e ih => simp [eval, ih]
  | notE e ih => simp [eval, ih]
  | andE a b iha ihb => simp [eval, iha, ihb]
  | orE a b iha ihb => simp [eval, iha, ihb]
  | cmp op a b iha ihb => simp [eval, iha, ihb]
  | arith op a b iha ihb => simp [eval, iha, ihb]
  | call1 f a ih => simp [eval, ih]
  | call2 f a b iha ihb => simp [eval, iha, ihb]

/-- Inserting the default `false` at an absent toggle index leaves every
evaluation unchanged: an absent `toggle[k]` behaves as `toggle[k] = false`. -/
theorem eval_toggle_insert (itp : MathInterp) (s : Sample) (k : Nat)
    (h : s.toggle.lookup k = none) (e : Expr) :
    eval itp { s with toggle := (k, false) :: s.toggle } e = eval itp s e := by
  induction e with
  | lit v => rfl
  | table t i =>
    cases t with
    | toggle =>
      simp only [eval, Sample.toggleAt, List.lookup]
      by_cases hik : i = k
      · subst hik
        simp [h]
      · have hbeq : (i == k) = false := by simp [hik]
        simp [hbeq]
    | axis => rfl
    | button => rfl
  | neg e ih => simp [eval, ih]
  | notE e ih => simp [eval, ih]
  | andE a b iha ihb => simp [eval, iha, ihb]
  | orE a b iha ihb => simp [eval, iha, ihb]
  | cmp op a b iha ihb => simp [eval, iha, ihb]
  | arith op a b iha ihb => simp [eval, iha, ihb]
  | call1 f a ih => simp [eval, ih]
  | call2 f a b iha ihb => simp [eval, iha, ihb]

/-! ## Claims -/

/-- C1: resolving `{foo: !7 'sin(axis[0] + 1.0)', bar: !7 'toggle[1] and
button[2]'}` with the provider registered under selector `"7"` (whose
Sample holds `axis[0] = 0.5`, `button[2] = true`, `toggle[1] = false`)
succeeds, and evaluating the resolved `foo` returns `sin(0.5 + 1.0) =
sin(3/2)` while the resolved `bar` returns `false`, for every
interpretation of the allow-listed math functions. -/
theorem c1_end_to_end (itp : MathInterp) :
    resolve lookup7 doc1 = Except.ok tree1 ∧
    (DynamicExpression.mk fooExpr sampleAt).evaluate 0 itp = .num (itp.un "sin" (3 / 2)) ∧
    (DynamicExpression.mk barExpr sampleAt).evaluate 0 itp = .bool false := by
  refine ⟨resolve_doc1, ?_, ?_⟩
  · show eval itp (sampleAt 0) fooExpr = _
    rw [show sampleAt 0 = sample0 from rfl]
    exact eval_foo_sample0 itp
  · show eval itp (sampleAt 0) barExpr = _
    rw [show sampleAt 0 = sample0 from rfl]
    exact eval_bar_sample0 itp

/-- C2: `evaluate()` pulls a fresh Sample on every call: the result is a
function only of the Sample current at that instant, and after the backing
state changes (`axis[0] ↦ -0.5`, `toggle[1] ↦ true`) the same resolved
nodes evaluate to `sin(-0.5 + 1.0) = sin(1/2)` and `true`, the values of
the new snapshot rather than the earlier one. -/
theorem c2_fresh_sample (itp : MathInterp) :
    (∀ (de : DynamicExpression) (t t' : Nat), de.sampler t = de.sampler t' →
      de.evaluate t itp = de.evaluate t' itp) ∧
    (DynamicExpression.mk fooExpr sampleAt).evaluate 1 itp = .num (itp.un "sin" (1 / 2)) ∧
    (DynamicExpression.mk barExpr sampleAt).evaluate 1 itp = .bool true := by
  refine ⟨?_, ?_, ?_⟩
  · intro de t t' h
    show eval itp (de.sampler t) de.expr = eval itp (de.sampler t') de.expr
    rw [h]
  · show eval itp (sampleAt 1) fooExpr = _
    rw [show sampleAt 1 = sample1 from rfl]
    exact eval_foo_sample1 itp
  · show eval itp (sampleAt 1) barExpr = _
    rw [show sampleAt 1 = sample1 from rfl]
    exact eval_bar_sample1 itp

/-- Witness for C2 at a concrete input: instants 5 and 7 sample the same
control state, so the two evaluations agree. -/
theorem c2_fresh_sample_witness :
    (DynamicExpression.mk fooExpr sampleAt).evaluate 5 trivialInterp =
      (DynamicExpression.mk fooExpr sampleAt).evaluate 7 trivialInterp :=
  (c2_fresh_sample trivialInterp).1 (DynamicExpression.mk fooExpr sampleAt) 5 7 (by rfl)

/-- C3: an index absent from a Sample's table evaluates to the table's
default (`0.0` for axis, `false` for button/toggle); inserting the default
at an absent key changes no evaluation, and with all three tables empty
`foo` evaluates to `sin(0.0 + 1.0)` and `bar` to `false`. -/
theorem c3_missing_defaults (itp : MathInterp) :
    (∀ (s : Sample) (k : Nat), s.axis.lookup k = none →
      eval itp s (.table .axis k) = .num 0) ∧
    (∀ (s : Sample) (k : Nat), s.button.lookup k = none →
      eval itp s (.table .button k) = .bool false) ∧
    (∀ (s : Sample) (k : Nat), s.toggle.lookup k = none →
      eval itp s (.table .toggle k) = .bool false) ∧
    (∀ (s : Sample) (k : Nat) (e : Expr), s.axis.lookup k = none →
      eval itp { s with axis := (k, 0) :: s.axis } e = eval itp s e) ∧
    (∀ (s : Sample) (k : Nat) (e : Expr), s.button.lookup k = none →
      eval itp { s with button := (k, false) :: s.button } e = eval itp s e) ∧
    (∀ (s : Sample) (k : Nat) (e : Expr), s.toggle.lookup k = none →
      eval itp { s with toggle := (k, false) :: s.toggle } e = eval itp s e) ∧
    eval itp sample2 fooExpr = .num (itp.un "sin" 1) ∧
    eval itp sample2 barExpr = .bool false := by
  refine ⟨?_, ?_, ?_, ?_, ?_, ?_, eval_foo_sample2 itp, eval_bar_sample2 itp⟩
  · intro s k h
    show Value.num (s.axisAt k) = _
    simp [Sample.axisAt, h]
  · intro s k h
    show Value.bool (s.buttonAt k) = _
    simp [Sample.buttonAt, h]
  · intro s k h
    show Value.bool (s.toggleAt k) = _
    simp [Sample.toggleAt, h]
  · intro s k e h
    exact eval_axis_insert itp s k h e
  · intro s k e h
    exact eval_button_insert itp s k h e
  · intro s k e h
    exact eval_toggle_insert itp s k h e

/-- Witness for C3 at concrete inputs: the empty Sample has no keys, so
each table yields its default and inserting a default is invisible. -/
theorem c3_missing_defaults_witness :
    eval trivialInterp sample2 (.table .axis 0) = .num 0 ∧
    eval trivialInterp sample2 (.table .button 1) = .bool false ∧
    eval trivialInterp sample2 (.table .toggle 2) = .bool false ∧
    eval trivialInterp { sample2 with axis := (3, 0) :: sample2.axis } fooExpr =
      eval trivialInterp sample2 fooExpr :=
  ⟨(c3_missing_defaults trivialInterp).1 sample2 0 rfl,
   (c3_missing_defaults trivialInterp).2.1 sample2 1 rfl,
   (c3_missing_defaults trivialInterp).2.2.1 sample2 2 rfl,
   (c3_missing_defaults trivialInterp).2.2.2.1 sample2 3 fooExpr rfl⟩

/-- C5: a tagged node whose underlying value is not a plain scalar makes
resolution fail: any document containing one yields no resolved tree, the
offending node itself reports a structural error, and that error's message
mentions the YAML-scalar requirement; in particular `baz: !999 []` fails
exactly this way. -/
theorem c5_tagged_non_scalar :
    (∀ (lk : String → Option Sampler) (doc : YNode), doc.badTag = true →
      ∃ e, resolve lk doc = Except.error e) ∧
    (∀ (lk : String → Option Sampler) (sel : String) (items : List YNode),
      resolve lk (.seq (some sel) items) = Except.error (structuralError sel)) ∧
    (∀ (lk : String → Option Sampler) (sel : String) (es : List (String × YNode)),
      resolve lk (.map (some sel) es) = Except.error (structuralError sel)) ∧
    (∀ sel, mentions (structuralError sel) "YAML scalar") ∧
    resolve lookup7 docBadStruct = Except.error (structuralError "999") := by
  refine ⟨fun lk doc h => badTag_error lk doc h, ?_, ?_, structuralError_mentions, ?_⟩
  · intro lk sel items
    simp [resolve, resolveNodeT]
  · intro lk sel es
    simp [resolve, resolveNodeT]
  · simp [resolve, docBadStruct, resolveNodeT, resolveEntriesT, Except.map]

/-- Witness for C5 at a concrete input: `baz: !999 []` contains a tagged
non-scalar, hence resolution returns an error. -/
theorem c5_tagged_non_scalar_witness :
    ∃ e, resolve lookup7 docBadStruct = Except.error e :=
  c5_tagged_non_scalar.1 lookup7 docBadStruct (by decide)

/-- C6: a tagged scalar whose expression text does not compile (syntax
error, or a symbol/function outside the allow-list) makes resolution fail
with a compile error whose message mentions compilation; `0syntax error`,
an unknown symbol and an unknown function all fail to compile. -/
theorem c6_compile_error :
    (∀ (lk : String → Option Sampler) (key sel text : String), compile text = none →
      resolve lk (.map none [(key, .scalar (some sel) text)]) =
        Except.error (compileError sel text)) ∧
    (∀ sel text, mentions (compileError sel text) "compile") ∧
    compile "0syntax error" = none ∧
    compile "quux + 1" = none ∧
    compile "foo(1)" = none := by
  refine ⟨?_, compileError_mentions, by decide, by decide, by decide⟩
  intro lk key sel text h
  simp [resolve, resolveNodeT, resolveEntriesT, h, Except.map]

/-- Witness for C6 at the test's concrete input `baz: !999 0syntax error`. -/
theorem c6_compile_error_witness :
    resolve lookup7 docBadSyntax = Except.error (compileError "999" "0syntax error") :=
  c6_compile_error.1 lookup7 "baz" "999" "0syntax error" (by decide)

/-- C7: a tagged scalar whose selector has no registered provider makes
resolution fail with a binding error that names the selector and states
that no controller exists for it; `baz: !999 axis[0]` fails this way under
the test's provider lookup. -/
theorem c7_binding_error :
    (∀ (lk : String → Option Sampler) (key sel text : String) (e : Expr),
      compile text = some e → lk sel = none →
      resolve lk (.map none [(key, .scalar (some sel) text)]) =
        Except.error (bindingError sel)) ∧
    (∀ sel, (bindingError sel).msg = "No controller found for selector " ++ sel) ∧
    (∀ sel, mentions (bindingError sel) "controller") ∧
    (∀ sel, mentions (bindingError sel) "selector") ∧
    resolve lookup7 docNoProvider = Except.error (bindingError "999") := by
  refine ⟨?_, fun sel => rfl, bindingError_mentions_controller, bindingError_mentions_selector, ?_⟩
  · intro lk key sel text e hc hl
    simp [resolve, resolveNodeT, resolveEntriesT, hc, hl, Except.map]
  · have h : compile "axis[0]" = some (.table .axis 0) := by decide
    simp [resolve, docNoProvider, resolveNodeT, resolveEntriesT, h, lookup7, Except.map]

/-- Witness for C7 at the test's concrete input `baz: !999 axis[0]`. -/
theorem c7_binding_error_witness :
    resolve lookup7 (.map none [("baz", .scalar (some "999") "axis[0]")]) =
      Except.error (bindingError "999") :=
  c7_binding_error.1 lookup7 "baz" "999" "axis[0]" (.table .axis 0) (by decide)
    (by simp [lookup7])

/-- C8: a successful resolution differs from the structural parse only at
validly-tagged scalar nodes, each replaced one-to-one by a Deferred
Expression Node; all other nodes are unchanged and mapping keys keep
their source order, so the example document resolves with keys
`foo, bar`. -/
theorem c8_frame_preservation :
    (∀ (lk : String → Option Sampler) (doc : YNode) (r : RNode),
      resolve lk doc = Except.ok r → Matches lk doc r) ∧
    Except.map RNode.keys (resolve lookup7 doc1) = Except.ok ["foo", "bar"] := by
  constructor
  · intro lk doc r h
    exact resolve_matches lk doc r h
  · rw [resolve_doc1]
    rfl

/-- Witness for C8 at the concrete example document. -/
theorem c8_frame_preservation_witness : Matches lookup7 doc1 tree1 :=
  c8_frame_preservation.1 lookup7 doc1 tree1 resolve_doc1

/-- C9: during a successful resolution `providerLookup` receives exactly
the selectors of the tagged nodes, one invocation per tagged node in
traversal order, and `evaluate()` never consults the lookup again: it is
a function of the stored compiled expression and the bound provider's
current Sample only. -/
theorem c9_lookup_once_per_tag :
    (∀ (lk : String → Option Sampler) (doc : YNode) (r : RNode),
      resolve lk doc = Except.ok r → lookupTrace lk doc = doc.taggedSelectors) ∧
    (∀ (de : DynamicExpression) (t : Nat) (itp : MathInterp),
      de.evaluate t itp = eval itp (de.sampler t) de.expr) :=
  ⟨fun lk doc r h => resolve_trace lk doc r h, fun _ _ _ => rfl⟩

/-- Witness for C9 at the concrete example document. -/
theorem c9_lookup_once_per_tag_witness :
    lookupTrace lookup7 doc1 = doc1.taggedSelectors :=
  c9_lookup_once_per_tag.1 lookup7 doc1 tree1 resolve_doc1

/-- C10: the three resolution-phase failures — tagged non-scalar, compile
failure, unbound selector — are all surfaced as the one exception type
`ExpressionError`, distinguished only by their message texts, which are
pairwise different and carry the phrase each test matches on. -/
theorem c10_single_error_type :
    ∃ e1 e2 e3 : ExpressionError,
      resolve lookup7 docBadStruct = Except.error e1 ∧
      resolve lookup7 docBadSyntax = Except.error e2 ∧
      resolve lookup7 docNoProvider = Except.error e3 ∧
      mentions e1 "YAML scalar" ∧
      mentions e2 "compile" ∧
      mentions e3 "controller" ∧
      e1.msg ≠ e2.msg ∧ e1.msg ≠ e3.msg ∧ e2.msg ≠ e3.msg := by
  refine ⟨structuralError "999", compileError "999" "0syntax error", bindingError "999",
    ?_, ?_, ?_, structuralError_mentions "999", compileError_mentions "999" "0syntax error",
    bindingError_mentions_controller "999", by decide, by decide, by decide⟩
  · simp [resolve, docBadStruct, resolveNodeT, resolveEntriesT, Except.map]
  · have h : compile "0syntax error" = none := by decide
    simp [resolve, docBadSyntax, resolveNodeT, resolveEntriesT, h, Except.map]
  · have h : compile "axis[0]" = some (.table .axis 0) := by decide
    simp [resolve, docNoProvider, resolveNodeT, resolveEntriesT, h, lookup7, Except.map]

end Yakut

